import Mathlib

/-!
Shallow embedding of the Tesla financial-modeling backend
(`backend/services/financial_calculator.py`, `backend/data/tesla_data.py`,
`backend/services/segment_analyzer.py`, `backend/data/tesla_enhanced_data.py`).

Real-number arithmetic of the Python source is embedded over `ℚ` (exact
rational arithmetic).  A Python division that can raise `ZeroDivisionError`
is modelled, where a claim depends on it, by an `Option`-returning variant
whose `none` marks the raise; the plain `ℚ` functions agree with the Python
semantics whenever no division by zero occurs.
-/

namespace Tesla

/-- `ScenarioType` enum from `models/financial_models.py`. -/
inductive Scenario where
  | best
  | base
  | worst
deriving DecidableEq

/-- `TeslaAssumptions` record (`models/financial_models.py`); numeric driver
fields only, embedded over `ℚ` (days fields are integers in the source but
enter the arithmetic as numbers). -/
structure TeslaAssumptions where
  scenario : Scenario
  year : ℤ
  total_deliveries : ℤ
  average_selling_price : ℚ
  automotive_revenue_growth : ℚ
  services_revenue_growth : ℚ
  gross_margin_automotive : ℚ
  gross_margin_services : ℚ
  cogs_inflation_rate : ℚ
  rd_as_percent_revenue : ℚ
  sga_as_percent_revenue : ℚ
  days_sales_outstanding : ℚ
  days_inventory_outstanding : ℚ
  days_payable_outstanding : ℚ
  capex_as_percent_revenue : ℚ
  depreciation_rate : ℚ
  tax_rate : ℚ
  interest_rate_on_debt : ℚ
  risk_free_rate : ℚ
  market_risk_premium : ℚ
  beta : ℚ
  debt_to_equity_ratio : ℚ


/-! `TESLA_BASE_YEAR_DATA` constants (`data/tesla_data.py`). -/

def baseYearAutomotiveRevenue : ℚ := 82419000000
def baseYearServicesRevenue : ℚ := 14354000000
def baseYearCash : ℚ := 28700000000
def baseYearTotalDebt : ℚ := 9570000000
def baseYearTotalDeliveries : ℤ := 1808581

/-- `base_delivery_growth` table in `get_tesla_assumptions`; the Python dict
has keys 2025–2029 only (a lookup outside raises `KeyError`; the model builder
only requests these five years). -/
def baseDeliveryGrowth (year : ℤ) : ℚ :=
  if year = 2025 then 0.20
  else if year = 2026 then 0.18
  else if year = 2027 then 0.15
  else if year = 2028 then 0.12
  else 0.10

/-- `delivery_growth_multiplier` from `scenario_multipliers`. -/
def deliveryGrowthMultiplier : Scenario → ℚ
  | .best => 1.3
  | .base => 1.0
  | .worst => 0.7

/-- `asp_premium` from `scenario_multipliers`. -/
def aspPremium : Scenario → ℚ
  | .best => 1.05
  | .base => 1.0
  | .worst => 0.95

/-- `margin_improvement` from `scenario_multipliers`. -/
def marginImprovement : Scenario → ℚ
  | .best => 0.02
  | .base => 0.0
  | .worst => -0.02

/-- `cost_inflation_discount` from `scenario_multipliers`. -/
def costInflationDiscount : Scenario → ℚ
  | .best => 0.8
  | .base => 1.0
  | .worst => 1.2

/-- Python `int()` truncation toward zero on a rational. -/
def pyInt (q : ℚ) : ℤ :=
  if 0 ≤ q then ⌊q⌋ else -⌊-q⌋

/-- `get_tesla_assumptions(scenario, year)` (`data/tesla_data.py`). -/
def getTeslaAssumptions (scenario : Scenario) (year : ℤ) : TeslaAssumptions :=
  let baseGrowth := baseDeliveryGrowth year
  let mult := deliveryGrowthMultiplier scenario
  { scenario := scenario
    year := year
    total_deliveries := pyInt ((baseYearTotalDeliveries : ℚ) * (1 + baseGrowth * mult))
    average_selling_price := 53500 * aspPremium scenario
    automotive_revenue_growth := baseGrowth * mult
    services_revenue_growth := 0.35
    gross_margin_automotive := min 0.25 (0.19 + marginImprovement scenario)
    gross_margin_services := 0.22
    cogs_inflation_rate := 0.045 * costInflationDiscount scenario
    rd_as_percent_revenue := max 0.025 (0.035 - ((year : ℚ) - 2025) * 0.002)
    sga_as_percent_revenue := max 0.04 (0.055 - ((year : ℚ) - 2025) * 0.003)
    days_sales_outstanding := 15
    days_inventory_outstanding := 25
    days_payable_outstanding := 45
    capex_as_percent_revenue := max 0.06 (0.09 - ((year : ℚ) - 2025) * 0.005)
    depreciation_rate := 0.12
    tax_rate := if scenario = .best then 0.21 else 0.25
    interest_rate_on_debt := 0.05
    risk_free_rate := 0.043
    market_risk_premium := 0.06
    beta := 2.3
    debt_to_equity_ratio := 0.1 }

/-- `IncomeStatement` record (`models/financial_models.py`). -/
structure IncomeStatement where
  scenario : Scenario
  year : ℤ
  automotive_revenue : ℚ
  services_revenue : ℚ
  total_revenue : ℚ
  automotive_cogs : ℚ
  services_cogs : ℚ
  total_cogs : ℚ
  automotive_gross_profit : ℚ
  services_gross_profit : ℚ
  total_gross_profit : ℚ
  gross_margin : ℚ
  research_development : ℚ
  selling_general_admin : ℚ
  total_operating_expenses : ℚ
  operating_income : ℚ
  operating_margin : ℚ
  interest_income : ℚ
  interest_expense : ℚ
  other_income : ℚ
  pretax_income : ℚ
  income_tax_expense : ℚ
  effective_tax_rate : ℚ
  net_income : ℚ
  net_margin : ℚ
  shares_outstanding : ℚ
  earnings_per_share : ℚ


/-- `TeslaFinancialCalculator.calculate_income_statement`
(`services/financial_calculator.py` lines 17–109).  `prev` carries the
`previous_year_data` dict entries `automotive_revenue` / `services_revenue`;
`none` is the falsy empty dict / `None`, which falls back to the base-year
figures.  Divisions are `ℚ`-total here; `calculateIncomeStatementChecked`
below tracks the one denominator the Python code can raise on. -/
def calculateIncomeStatement (a : TeslaAssumptions) (prev : Option (ℚ × ℚ)) :
    IncomeStatement :=
  let prev_auto_revenue := match prev with
    | some p => p.1
    | none => baseYearAutomotiveRevenue
  let prev_services_revenue := match prev with
    | some p => p.2
    | none => baseYearServicesRevenue
  let automotive_revenue := prev_auto_revenue * (1 + a.automotive_revenue_growth)
  let services_revenue := prev_services_revenue * (1 + a.services_revenue_growth)
  let total_revenue := automotive_revenue + services_revenue
  let automotive_cogs := automotive_revenue * (1 - a.gross_margin_automotive)
  let services_cogs := services_revenue * (1 - a.gross_margin_services)
  let total_cogs := automotive_cogs + services_cogs
  let automotive_gross_profit := automotive_revenue - automotive_cogs
  let services_gross_profit := services_revenue - services_cogs
  let total_gross_profit := automotive_gross_profit + services_gross_profit
  let gross_margin := total_gross_profit / total_revenue
  let research_development := total_revenue * a.rd_as_percent_revenue
  let selling_general_admin := total_revenue * a.sga_as_percent_revenue
  let total_operating_expenses := research_development + selling_general_admin
  let operating_income := total_gross_profit - total_operating_expenses
  let operating_margin := operating_income / total_revenue
  let interest_income := 0.02 * 28000000000
  let interest_expense := a.interest_rate_on_debt * 9570000000
  let other_income := 100000000
  let pretax_income := operating_income + interest_income - interest_expense + other_income
  let income_tax_expense := if 0 < pretax_income then pretax_income * a.tax_rate else 0
  let effective_tax_rate := if 0 < pretax_income then a.tax_rate else 0
  let net_income := pretax_income - income_tax_expense
  let net_margin := if 0 < total_revenue then net_income / total_revenue else 0
  let shares_outstanding : ℚ := 3178000000
  let earnings_per_share := net_income / shares_outstanding
  { scenario := a.scenario
    year := a.year
    automotive_revenue := automotive_revenue
    services_revenue := services_revenue
    total_revenue := total_revenue
    automotive_cogs := automotive_cogs
    services_cogs := services_cogs
    total_cogs := total_cogs
    automotive_gross_profit := automotive_gross_profit
    services_gross_profit := services_gross_profit
    total_gross_profit := total_gross_profit
    gross_margin := gross_margin
    research_development := research_development
    selling_general_admin := selling_general_admin
    total_operating_expenses := total_operating_expenses
    operating_income := operating_income
    operating_margin := operating_margin
    interest_income := interest_income
    interest_expense := interest_expense
    other_income := other_income
    pretax_income := pretax_income
    income_tax_expense := income_tax_expense
    effective_tax_rate := effective_tax_rate
    net_income := net_income
    net_margin := net_margin
    shares_outstanding := shares_outstanding
    earnings_per_share := earnings_per_share }

/-- `calculate_income_statement` with the Python `ZeroDivisionError` made
explicit: the unguarded divisions `gross_margin = total_gross_profit /
total_revenue` (line 46) and `operating_margin = operating_income /
total_revenue` (line 55) raise exactly when `total_revenue == 0`
(`net_margin` is guarded by `if total_revenue > 0`, and the EPS denominator
is the constant `3178000000`). -/
def calculateIncomeStatementChecked (a : TeslaAssumptions)
    (prev : Option (ℚ × ℚ)) : Option IncomeStatement :=
  let stmt := calculateIncomeStatement a prev
  if stmt.total_revenue = 0 then none else some stmt

/-- `BalanceSheet` record (`models/financial_models.py`). -/
structure BalanceSheet where
  scenario : Scenario
  year : ℤ
  cash_and_equivalents : ℚ
  accounts_receivable : ℚ
  inventory : ℚ
  prepaid_expenses : ℚ
  other_current_assets : ℚ
  total_current_assets : ℚ
  property_plant_equipment : ℚ
  accumulated_depreciation : ℚ
  net_ppe : ℚ
  intangible_assets : ℚ
  other_non_current_assets : ℚ
  total_non_current_assets : ℚ
  total_assets : ℚ
  accounts_payable : ℚ
  accrued_liabilities : ℚ
  current_portion_debt : ℚ
  other_current_liabilities : ℚ
  total_current_liabilities : ℚ
  long_term_debt : ℚ
  other_non_current_liabilities : ℚ
  total_non_current_liabilities : ℚ
  total_liabilities : ℚ
  common_stock : ℚ
  retained_earnings : ℚ
  other_equity : ℚ
  total_shareholders_equity : ℚ
  total_liab_and_equity : ℚ


/-- `CashFlowStatement` record (`models/financial_models.py`). -/
structure CashFlowStatement where
  scenario : Scenario
  year : ℤ
  net_income : ℚ
  depreciation_amortization : ℚ
  stock_based_compensation : ℚ
  change_accounts_receivable : ℚ
  change_inventory : ℚ
  change_accounts_payable : ℚ
  change_other_working_capital : ℚ
  other_operating_activities : ℚ
  operating_cash_flow : ℚ
  capital_expenditures : ℚ
  acquisitions : ℚ
  investments : ℚ
  other_investing_activities : ℚ
  investing_cash_flow : ℚ
  debt_proceeds : ℚ
  debt_repayments : ℚ
  equity_proceeds : ℚ
  share_repurchases : ℚ
  dividends_paid : ℚ
  other_financing_activities : ℚ
  financing_cash_flow : ℚ
  net_change_cash : ℚ
  beginning_cash : ℚ
  ending_cash : ℚ
  free_cash_flow : ℚ


/-- `TeslaFinancialCalculator.calculate_balance_sheet`
(`services/financial_calculator.py` lines 111–221). -/
def calculateBalanceSheet (a : TeslaAssumptions) (income_stmt : IncomeStatement)
    (previous_balance_sheet : Option BalanceSheet)
    (cash_flow_stmt : Option CashFlowStatement) : BalanceSheet :=
  let prev_cash := match previous_balance_sheet with
    | some b => b.cash_and_equivalents
    | none => baseYearCash
  let prev_ppe : ℚ := match previous_balance_sheet with
    | some b => b.net_ppe
    | none => 50000000000
  let prev_debt := match previous_balance_sheet with
    | some b => b.long_term_debt
    | none => baseYearTotalDebt
  let prev_retained_earnings : ℚ := match previous_balance_sheet with
    | some b => b.retained_earnings
    | none => 20000000000
  let cash_and_equivalents := match cash_flow_stmt with
    | some cf => cf.ending_cash
    | none => prev_cash
  let accounts_receivable :=
    (a.days_sales_outstanding / 365) * income_stmt.total_revenue
  let inventory := (a.days_inventory_outstanding / 365) * income_stmt.total_cogs
  let prepaid_expenses := income_stmt.total_revenue * 0.01
  let other_current_assets := income_stmt.total_revenue * 0.02
  let total_current_assets := cash_and_equivalents + accounts_receivable +
    inventory + prepaid_expenses + other_current_assets
  let annual_capex := income_stmt.total_revenue * a.capex_as_percent_revenue
  let annual_depreciation := prev_ppe * a.depreciation_rate
  let net_ppe := prev_ppe + annual_capex - annual_depreciation
  let accumulated_depreciation := annual_depreciation
  let property_plant_equipment := net_ppe + accumulated_depreciation
  let intangible_assets : ℚ := 2000000000
  let other_non_current_assets : ℚ := 5000000000
  let total_non_current_assets := net_ppe + intangible_assets + other_non_current_assets
  let total_assets := total_current_assets + total_non_current_assets
  let accounts_payable := (a.days_payable_outstanding / 365) * income_stmt.total_cogs
  let accrued_liabilities := income_stmt.total_revenue * 0.03
  let current_portion_debt := prev_debt * 0.1
  let other_current_liabilities := income_stmt.total_revenue * 0.02
  let total_current_liabilities := accounts_payable + accrued_liabilities +
    current_portion_debt + other_current_liabilities
  let long_term_debt := prev_debt - current_portion_debt
  let other_non_current_liabilities : ℚ := 3000000000
  let total_non_current_liabilities := long_term_debt + other_non_current_liabilities
  let total_liabilities := total_current_liabilities + total_non_current_liabilities
  let common_stock : ℚ := 1000000000
  let retained_earnings := prev_retained_earnings + income_stmt.net_income
  let other_equity : ℚ := 500000000
  let total_shareholders_equity := common_stock + retained_earnings + other_equity
  let total_liab_and_equity := total_liabilities + total_shareholders_equity
  { scenario := a.scenario
    year := a.year
    cash_and_equivalents := cash_and_equivalents
    accounts_receivable := accounts_receivable
    inventory := inventory
    prepaid_expenses := prepaid_expenses
    other_current_assets := other_current_assets
    total_current_assets := total_current_assets
    property_plant_equipment := property_plant_equipment
    accumulated_depreciation := accumulated_depreciation
    net_ppe := net_ppe
    intangible_assets := intangible_assets
    other_non_current_assets := other_non_current_assets
    total_non_current_assets := total_non_current_assets
    total_assets := total_assets
    accounts_payable := accounts_payable
    accrued_liabilities := accrued_liabilities
    current_portion_debt := current_portion_debt
    other_current_liabilities := other_current_liabilities
    total_current_liabilities := total_current_liabilities
    long_term_debt := long_term_debt
    other_non_current_liabilities := other_non_current_liabilities
    total_non_current_liabilities := total_non_current_liabilities
    total_liabilities := total_liabilities
    common_stock := common_stock
    retained_earnings := retained_earnings
    other_equity := other_equity
    total_shareholders_equity := total_shareholders_equity
    total_liab_and_equity := total_liab_and_equity }

/-- `TeslaFinancialCalculator.calculate_cash_flow_statement`
(`services/financial_calculator.py` lines 223–321). -/
def calculateCashFlowStatement (a : TeslaAssumptions)
    (income_stmt : IncomeStatement) (current_balance_sheet : BalanceSheet)
    (previous_balance_sheet : Option BalanceSheet) : CashFlowStatement :=
  let beginning_cash := match previous_balance_sheet with
    | some b => b.cash_and_equivalents
    | none => baseYearCash
  let net_income := income_stmt.net_income
  let annual_capex := income_stmt.total_revenue * a.capex_as_percent_revenue
  let depreciation_amortization :=
    (match previous_balance_sheet with
      | some b => b.net_ppe
      | none => (50000000000 : ℚ)) * a.depreciation_rate
  let stock_based_compensation := income_stmt.total_revenue * 0.01
  let change_accounts_receivable := match previous_balance_sheet with
    | some b => current_balance_sheet.accounts_receivable - b.accounts_receivable
    | none => -current_balance_sheet.accounts_receivable
  let change_inventory := match previous_balance_sheet with
    | some b => current_balance_sheet.inventory - b.inventory
    | none => -current_balance_sheet.inventory
  let change_accounts_payable := match previous_balance_sheet with
    | some b => current_balance_sheet.accounts_payable - b.accounts_payable
    | none => current_balance_sheet.accounts_payable
  let change_other_working_capital : ℚ := 0
  let other_operating_activities : ℚ := 0
  let operating_cash_flow := net_income + depreciation_amortization +
    stock_based_compensation - change_accounts_receivable - change_inventory +
    change_accounts_payable + change_other_working_capital +
    other_operating_activities
  let capital_expenditures := -annual_capex
  let acquisitions : ℚ := 0
  let investments : ℚ := 0
  let other_investing_activities : ℚ := 0
  let investing_cash_flow := capital_expenditures + acquisitions +
    investments + other_investing_activities
  let debt_proceeds : ℚ := 0
  let debt_repayments : ℚ := 0
  let equity_proceeds : ℚ := 0
  let share_repurchases : ℚ := 0
  let dividends_paid : ℚ := 0
  let other_financing_activities : ℚ := 0
  let financing_cash_flow := debt_proceeds - debt_repayments + equity_proceeds -
    share_repurchases - dividends_paid + other_financing_activities
  let net_change_cash := operating_cash_flow + investing_cash_flow + financing_cash_flow
  let ending_cash := beginning_cash + net_change_cash
  let free_cash_flow := operating_cash_flow + capital_expenditures
  { scenario := a.scenario
    year := a.year
    net_income := net_income
    depreciation_amortization := depreciation_amortization
    stock_based_compensation := stock_based_compensation
    change_accounts_receivable := change_accounts_receivable
    change_inventory := change_inventory
    change_accounts_payable := change_accounts_payable
    change_other_working_capital := change_other_working_capital
    other_operating_activities := other_operating_activities
    operating_cash_flow := operating_cash_flow
    capital_expenditures := capital_expenditures
    acquisitions := acquisitions
    investments := investments
    other_investing_activities := other_investing_activities
    investing_cash_flow := investing_cash_flow
    debt_proceeds := debt_proceeds
    debt_repayments := debt_repayments
    equity_proceeds := equity_proceeds
    share_repurchases := share_repurchases
    dividends_paid := dividends_paid
    other_financing_activities := other_financing_activities
    financing_cash_flow := financing_cash_flow
    net_change_cash := net_change_cash
    beginning_cash := beginning_cash
    ending_cash := ending_cash
    free_cash_flow := free_cash_flow }

/-- `TeslaFinancialCalculator.calculate_wacc`
(`services/financial_calculator.py` lines 323–346); returns
`(cost_of_equity, cost_of_debt, wacc)`. -/
def calculateWacc (a : TeslaAssumptions) (bs : BalanceSheet) : ℚ × ℚ × ℚ :=
  let cost_of_equity := a.risk_free_rate + a.beta * a.market_risk_premium
  let cost_of_debt := a.interest_rate_on_debt * (1 - a.tax_rate)
  let total_debt := bs.long_term_debt + bs.current_portion_debt
  let market_value_equity := bs.total_shareholders_equity
  let total_capital := total_debt + market_value_equity
  let weight_debt := if 0 < total_capital then total_debt / total_capital else 0
  let weight_equity :=
    if 0 < total_capital then market_value_equity / total_capital else 1
  let wacc := weight_equity * cost_of_equity + weight_debt * cost_of_debt
  (cost_of_equity, cost_of_debt, wacc)

/-- The five `sensitivity_growth_rates` hard-coded in
`calculate_dcf_valuation` (line 388). -/
def sensitivityGrowthRates : List ℚ := [0.015, 0.020, 0.025, 0.030, 0.035]

/-- The five `sensitivity_wacc_rates` (line 389), centred on the computed WACC. -/
def sensitivityWaccRates (wacc : ℚ) : List ℚ :=
  [wacc - 0.01, wacc - 0.005, wacc, wacc + 0.005, wacc + 0.01]

/-- The `for i, fcf in enumerate(...)` discounting loop, carrying the running
index `i`: each cash flow is divided by `(1 + r) ^ (i + 1)`. -/
def discountFrom (r : ℚ) : ℕ → List ℚ → ℚ
  | _, [] => 0
  | i, f :: rest => f / (1 + r) ^ (i + 1) + discountFrom r (i + 1) rest

/-- Present value of the projected FCF path at discount rate `r`
(the `for i, fcf in enumerate(...)` accumulation, lines 370–373 / 402–404). -/
def presentValueCashFlows (r : ℚ) (fcfs : List ℚ) : ℚ :=
  discountFrom r 0 fcfs

/-- One sensitivity cell (lines 394–409): sentinel `0` when
`discount_rate <= growth`, otherwise the recomputed price per share. -/
def sensitivityCell (final_year_fcf : ℚ) (fcfs : List ℚ) (net_cash : ℚ)
    (growth discount_rate : ℚ) : ℚ :=
  if discount_rate ≤ growth then 0
  else
    let sens_terminal_fcf := final_year_fcf * (1 + growth)
    let sens_terminal_value := sens_terminal_fcf / (discount_rate - growth)
    let sens_pv_terminal := sens_terminal_value / (1 + discount_rate) ^ 5
    let sens_pv_cf := presentValueCashFlows discount_rate fcfs
    let sens_enterprise_value := sens_pv_cf + sens_pv_terminal
    let sens_equity_value := sens_enterprise_value + net_cash
    sens_equity_value / 3178000000

/-- Sensitivity cell with every Python division's zero-denominator raise made
explicit (`none` = `ZeroDivisionError`): the divisors on the valid branch are
`discount_rate - growth`, `(1 + discount_rate) ** 5`, each
`(1 + discount_rate) ** (i + 1)`, and the constant share count. -/
def sensitivityCellChecked (final_year_fcf : ℚ) (fcfs : List ℚ) (net_cash : ℚ)
    (growth discount_rate : ℚ) : Option ℚ :=
  if discount_rate ≤ growth then some 0
  else if discount_rate - growth = 0 ∨ (1 + discount_rate) = 0 then none
  else some (sensitivityCell final_year_fcf fcfs net_cash growth discount_rate)

/-- `sensitivity_matrix` (lines 391–410): rows indexed by growth rate, columns
by discount rate. -/
def sensitivityMatrix (final_year_fcf : ℚ) (fcfs : List ℚ) (net_cash : ℚ)
    (wacc : ℚ) : List (List ℚ) :=
  sensitivityGrowthRates.map fun growth =>
    (sensitivityWaccRates wacc).map fun discount_rate =>
      sensitivityCell final_year_fcf fcfs net_cash growth discount_rate

/-- `DCFValuation` record (`models/financial_models.py`), numeric fields. -/
structure DCFValuation where
  scenario : Scenario
  cost_of_equity : ℚ
  cost_of_debt : ℚ
  wacc : ℚ
  projected_free_cash_flows : List ℚ
  terminal_growth_rate : ℚ
  terminal_value : ℚ
  present_value_terminal : ℚ
  present_value_cash_flows : ℚ
  enterprise_value : ℚ
  net_cash : ℚ
  equity_value : ℚ
  shares_outstanding : ℚ
  price_per_share : ℚ
  sensitivity_growth_rates : List ℚ
  sensitivity_wacc_rates : List ℚ
  sensitivity_matrix : List (List ℚ)


/-- `TeslaFinancialCalculator.calculate_dcf_valuation`
(`services/financial_calculator.py` lines 348–430).  The headline terminal
value divides by `wacc - terminal_growth_rate` with no guard (line 364);
`projected_free_cash_flows[-1]` is embedded via `getLast?` (the builder always
passes the five yearly statements, so the list is never empty there). -/
def calculateDCFValuation (scenario : Scenario)
    (cash_flow_statements : List CashFlowStatement)
    (final_year_assumptions : TeslaAssumptions)
    (final_balance_sheet : BalanceSheet) : DCFValuation :=
  let projected_free_cash_flows := cash_flow_statements.map (·.free_cash_flow)
  let w := calculateWacc final_year_assumptions final_balance_sheet
  let cost_of_equity := w.1
  let cost_of_debt := w.2.1
  let wacc := w.2.2
  let terminal_growth_rate : ℚ := 0.025
  let final_year_fcf := (projected_free_cash_flows.getLast?).getD 0
  let terminal_fcf := final_year_fcf * (1 + terminal_growth_rate)
  let terminal_value := terminal_fcf / (wacc - terminal_growth_rate)
  let present_value_terminal := terminal_value / (1 + wacc) ^ 5
  let present_value_cash_flows := presentValueCashFlows wacc projected_free_cash_flows
  let enterprise_value := present_value_cash_flows + present_value_terminal
  let net_cash := final_balance_sheet.cash_and_equivalents -
    (final_balance_sheet.long_term_debt + final_balance_sheet.current_portion_debt)
  let equity_value := enterprise_value + net_cash
  let shares_outstanding : ℚ := 3178000000
  let price_per_share := equity_value / shares_outstanding
  { scenario := scenario
    cost_of_equity := cost_of_equity
    cost_of_debt := cost_of_debt
    wacc := wacc
    projected_free_cash_flows := projected_free_cash_flows
    terminal_growth_rate := terminal_growth_rate
    terminal_value := terminal_value
    present_value_terminal := present_value_terminal
    present_value_cash_flows := present_value_cash_flows
    enterprise_value := enterprise_value
    net_cash := net_cash
    equity_value := equity_value
    shares_outstanding := shares_outstanding
    price_per_share := price_per_share
    sensitivity_growth_rates := sensitivityGrowthRates
    sensitivity_wacc_rates := sensitivityWaccRates wacc
    sensitivity_matrix :=
      sensitivityMatrix final_year_fcf projected_free_cash_flows net_cash wacc }

/-- The in-place cash reconciliation in `build_complete_financial_model`
(lines 471–483): the balance sheet's cash is overwritten with the cash-flow
statement's ending cash and the dependent totals are recomputed. -/
def reconcileBalanceSheet (bs : BalanceSheet) (cf : CashFlowStatement) :
    BalanceSheet :=
  let total_current_assets := cf.ending_cash + bs.accounts_receivable +
    bs.inventory + bs.prepaid_expenses + bs.other_current_assets
  { bs with
    cash_and_equivalents := cf.ending_cash
    total_current_assets := total_current_assets
    total_assets := total_current_assets + bs.total_non_current_assets
    total_liab_and_equity := bs.total_liabilities + bs.total_shareholders_equity }

/-- One iteration of the year loop in `build_complete_financial_model`
(lines 450–489): income statement, provisional balance sheet, cash-flow
statement, then the in-place cash reconciliation. -/
def modelStep (previous_income : Option IncomeStatement)
    (previous_balance : Option BalanceSheet) (a : TeslaAssumptions) :
    IncomeStatement × BalanceSheet × CashFlowStatement :=
  let prev_data := previous_income.map fun i =>
    (i.automotive_revenue, i.services_revenue)
  let income_stmt := calculateIncomeStatement a prev_data
  let provisional := calculateBalanceSheet a income_stmt previous_balance none
  let cash_flow := calculateCashFlowStatement a income_stmt provisional previous_balance
  let balance_sheet := reconcileBalanceSheet provisional cash_flow
  (income_stmt, balance_sheet, cash_flow)

/-- The year-by-year fold of `build_complete_financial_model` over an ordered
assumption list, threading the previous income statement and the previous
(finalized) balance sheet; returns the three statement lists in year order. -/
def runModel (previous_income : Option IncomeStatement)
    (previous_balance : Option BalanceSheet) :
    List TeslaAssumptions →
      List IncomeStatement × List BalanceSheet × List CashFlowStatement
  | [] => ([], [], [])
  | a :: rest =>
    let s := modelStep previous_income previous_balance a
    let tail := runModel (some s.1) (some s.2.1) rest
    (s.1 :: tail.1, s.2.1 :: tail.2.1, s.2.2 :: tail.2.2)

/-- `FinancialModel` aggregate (`models/financial_models.py`). -/
structure FinancialModel where
  scenario : Scenario
  assumptions : List TeslaAssumptions
  income_statements : List IncomeStatement
  balance_sheets : List BalanceSheet
  cash_flow_statements : List CashFlowStatement
  dcf_valuation : DCFValuation


/-- The forecast years `[2025, ..., 2029]` of `build_complete_financial_model`. -/
def forecastYears : List ℤ := [2025, 2026, 2027, 2028, 2029]

/-- `TeslaFinancialCalculator.build_complete_financial_model`
(`services/financial_calculator.py` lines 432–502). -/
def buildCompleteFinancialModel (scenario : Scenario) : FinancialModel :=
  let all_assumptions := forecastYears.map (getTeslaAssumptions scenario)
  let r := runModel none none all_assumptions
  let income_statements := r.1
  let balance_sheets := r.2.1
  let cash_flow_statements := r.2.2
  let dcf_valuation := calculateDCFValuation scenario cash_flow_statements
    ((all_assumptions.getLast?).getD (getTeslaAssumptions scenario 2029))
    ((balance_sheets.getLast?).getD (calculateBalanceSheet
      (getTeslaAssumptions scenario 2029)
      (calculateIncomeStatement (getTeslaAssumptions scenario 2029) none) none none))
  { scenario := scenario
    assumptions := all_assumptions
    income_statements := income_statements
    balance_sheets := balance_sheets
    cash_flow_statements := cash_flow_statements
    dcf_valuation := dcf_valuation }

/-! ### `TeslaSegmentAnalyzer.calculate_revenue_bridge`
(`services/segment_analyzer.py` lines 92–145). -/

/-- One entry of `automotive_revenue_by_model` as consumed by the revenue
bridge (only `deliveries` and `asp` are read). -/
structure BridgeModelEntry where
  deliveries : ℚ
  asp : ℚ


/-- The per-period snapshot handed to `calculate_revenue_bridge`: total
revenue, the `energy_revenue` / `services_revenue` fields (`.get(key, 0)` in
the source), and the automotive per-model breakdown keyed by model name. -/
structure BridgeYearData where
  total_revenue : ℚ
  energy_revenue : ℚ
  services_revenue : ℚ
  automotive_revenue_by_model : List (String × BridgeModelEntry)


/-- Dict lookup `base[...][model_key]` used by the bridge's membership test. -/
def lookupModel (l : List (String × BridgeModelEntry)) (k : String) :
    Option BridgeModelEntry :=
  (l.find? fun p => p.1 == k).map (·.2)

/-- Output of `calculate_revenue_bridge` (the `bridge_components` plus the
headline figures; the percentage block divides by `abs(total_change)` and is
guarded by `total_change != 0`). -/
structure RevenueBridge where
  base_revenue : ℚ
  current_revenue : ℚ
  total_change : ℚ
  volume_effect : ℚ
  price_effect : ℚ
  mix_effect : ℚ
  energy_growth : ℚ
  services_growth : ℚ
  volume_contribution : ℚ
  price_contribution : ℚ
  mix_contribution : ℚ
  energy_contribution : ℚ
  services_contribution : ℚ


/-- `TeslaSegmentAnalyzer.calculate_revenue_bridge` (lines 92–145): the
volume/price effects fold over the models of the comparison period that also
appear in the base period; `mix_effect` is the residual
`total_change - volume_effect - price_effect`; the energy/services deltas are
returned as separate components. -/
def calculateRevenueBridge (base current : BridgeYearData) : RevenueBridge :=
  let base_revenue := base.total_revenue
  let current_revenue := current.total_revenue
  let total_change := current_revenue - base_revenue
  let effects := current.automotive_revenue_by_model.foldl
    (fun acc p =>
      match lookupModel base.automotive_revenue_by_model p.1 with
      | some b =>
        (acc.1 + (p.2.deliveries - b.deliveries) * b.asp,
         acc.2 + b.deliveries * (p.2.asp - b.asp))
      | none => acc)
    ((0 : ℚ), (0 : ℚ))
  let volume_effect := effects.1
  let price_effect := effects.2
  let mix_effect := total_change - volume_effect - price_effect
  let energy_growth := current.energy_revenue - base.energy_revenue
  let services_growth := current.services_revenue - base.services_revenue
  let pct := fun (x : ℚ) =>
    if total_change ≠ 0 then x / |total_change| * 100 else 0
  { base_revenue := base_revenue
    current_revenue := current_revenue
    total_change := total_change
    volume_effect := volume_effect
    price_effect := price_effect
    mix_effect := mix_effect
    energy_growth := energy_growth
    services_growth := services_growth
    volume_contribution := pct volume_effect
    price_contribution := pct price_effect
    mix_contribution := pct mix_effect
    energy_contribution := pct energy_growth
    services_contribution := pct services_growth }

/-! ### `get_enhanced_tesla_drivers` delivery projection
(`data/tesla_enhanced_data.py` lines 103–162). -/

/-- The six vehicle-model keys of `TESLA_HISTORICAL_DATA["historical_deliveries"]`. -/
inductive VehicleModel where
  | model_s
  | model_x
  | model_3
  | model_y
  | cybertruck
  | semi
deriving DecidableEq

/-- `base_deliveries_2023 = TESLA_HISTORICAL_DATA["historical_deliveries"][2023]`
— note the fractional counts for Model S and Model X. -/
def baseDeliveries2023 : VehicleModel → ℚ
  | .model_s => 27389.5
  | .model_x => 41484.5
  | .model_3 => 626938
  | .model_y => 1112769
  | .cybertruck => 1163
  | .semi => 0

/-- `delivery_growth_assumptions[scenario][model]` lookup for a year; the
Python dicts hold exactly the keys 2024–2029, so any other year is `none`
(the `else` fallback in the source). -/
def deliveryGrowthRate (s : Scenario) (m : VehicleModel) (y : ℤ) : Option ℚ :=
  if y = 2024 then some (match s, m with
    | .best, .model_s => 0.15 | .best, .model_x => 0.18 | .best, .model_3 => 0.08
    | .best, .model_y => 0.25 | .best, .cybertruck => 8.0 | .best, .semi => 50.0
    | .base, .model_s => 0.10 | .base, .model_x => 0.12 | .base, .model_3 => 0.05
    | .base, .model_y => 0.18 | .base, .cybertruck => 5.0 | .base, .semi => 20.0
    | .worst, .model_s => 0.05 | .worst, .model_x => 0.06 | .worst, .model_3 => 0.02
    | .worst, .model_y => 0.10 | .worst, .cybertruck => 3.0 | .worst, .semi => 10.0)
  else if y = 2025 then some (match s, m with
    | .best, .model_s => 0.12 | .best, .model_x => 0.15 | .best, .model_3 => 0.06
    | .best, .model_y => 0.20 | .best, .cybertruck => 2.5 | .best, .semi => 5.0
    | .base, .model_s => 0.08 | .base, .model_x => 0.10 | .base, .model_3 => 0.04
    | .base, .model_y => 0.15 | .base, .cybertruck => 2.0 | .base, .semi => 3.0
    | .worst, .model_s => 0.03 | .worst, .model_x => 0.04 | .worst, .model_3 => 0.01
    | .worst, .model_y => 0.08 | .worst, .cybertruck => 1.2 | .worst, .semi => 1.5)
  else if y = 2026 then some (match s, m with
    | .best, .model_s => 0.10 | .best, .model_x => 0.12 | .best, .model_3 => 0.05
    | .best, .model_y => 0.15 | .best, .cybertruck => 1.8 | .best, .semi => 3.0
    | .base, .model_s => 0.06 | .base, .model_x => 0.08 | .base, .model_3 => 0.03
    | .base, .model_y => 0.12 | .base, .cybertruck => 1.5 | .base, .semi => 2.0
    | .worst, .model_s => 0.02 | .worst, .model_x => 0.03 | .worst, .model_3 => 0.00
    | .worst, .model_y => 0.06 | .worst, .cybertruck => 0.8 | .worst, .semi => 1.0)
  else if y = 2027 then some (match s, m with
    | .best, .model_s => 0.08 | .best, .model_x => 0.10 | .best, .model_3 => 0.04
    | .best, .model_y => 0.12 | .best, .cybertruck => 1.4 | .best, .semi => 2.0
    | .base, .model_s => 0.05 | .base, .model_x => 0.06 | .base, .model_3 => 0.02
    | .base, .model_y => 0.10 | .base, .cybertruck => 1.2 | .base, .semi => 1.5
    | .worst, .model_s => 0.01 | .worst, .model_x => 0.02 | .worst, .model_3 => -0.01
    | .worst, .model_y => 0.04 | .worst, .cybertruck => 0.6 | .worst, .semi => 0.8)
  else if y = 2028 then some (match s, m with
    | .best, .model_s => 0.06 | .best, .model_x => 0.08 | .best, .model_3 => 0.03
    | .best, .model_y => 0.10 | .best, .cybertruck => 1.2 | .best, .semi => 1.5
    | .base, .model_s => 0.04 | .base, .model_x => 0.05 | .base, .model_3 => 0.02
    | .base, .model_y => 0.08 | .base, .cybertruck => 1.0 | .base, .semi => 1.2
    | .worst, .model_s => 0.01 | .worst, .model_x => 0.01 | .worst, .model_3 => -0.01
    | .worst, .model_y => 0.03 | .worst, .cybertruck => 0.5 | .worst, .semi => 0.6)
  else if y = 2029 then some (match s, m with
    | .best, .model_s => 0.05 | .best, .model_x => 0.06 | .best, .model_3 => 0.02
    | .best, .model_y => 0.08 | .best, .cybertruck => 1.0 | .best, .semi => 1.2
    | .base, .model_s => 0.03 | .base, .model_x => 0.04 | .base, .model_3 => 0.01
    | .base, .model_y => 0.06 | .base, .cybertruck => 0.8 | .base, .semi => 1.0
    | .worst, .model_s => 0.00 | .worst, .model_x => 0.01 | .worst, .model_3 => -0.02
    | .worst, .model_y => 0.02 | .worst, .cybertruck => 0.4 | .worst, .semi => 0.5)
  else none

/-- The `cumulative_growth` loop of `get_enhanced_tesla_drivers`
(`for y in range(2024, year + 1): if y in growth_rates[model]: ...`). -/
def cumulativeGrowth (s : Scenario) (m : VehicleModel) (year : ℤ) : ℚ :=
  (List.range (year - 2023).toNat).foldl
    (fun acc i =>
      match deliveryGrowthRate s m (2024 + (i : ℤ)) with
      | some g => acc * (1 + g)
      | none => acc)
    1

/-- The per-model `projected_deliveries` entry of `get_enhanced_tesla_drivers`
(`data/tesla_enhanced_data.py` lines 151–162): inside the growth table the
compounded count is truncated (`int`) and clamped (`max(0, ...)`); outside it
the raw 2023 base count is returned unchanged. -/
def projectedDeliveries (s : Scenario) (m : VehicleModel) (year : ℤ) : ℚ :=
  match deliveryGrowthRate s m year with
  | some _ => ((max 0 (pyInt (baseDeliveries2023 m * cumulativeGrowth s m year)) : ℤ) : ℚ)
  | none => baseDeliveries2023 m

/-- The forecast years of the enhanced model
(`build_enhanced_financial_model` default `range(2024, 2034)`). -/
def enhancedForecastYears : List ℤ :=
  [2024, 2025, 2026, 2027, 2028, 2029, 2030, 2031, 2032, 2033]

/-! ### Concrete inputs used by counterexamples and witnesses. -/

/-- An assumption set whose CAPM inputs and debt rate are all zero, driving
the computed WACC to `0`, below the 2.5% terminal growth rate. -/
def degenerateAssumptions : TeslaAssumptions :=
  { getTeslaAssumptions .base 2025 with
    risk_free_rate := 0, beta := 0, market_risk_premium := 0,
    interest_rate_on_debt := 0 }

def degenerateIncome : IncomeStatement :=
  calculateIncomeStatement degenerateAssumptions none

def degenerateBalance : BalanceSheet :=
  calculateBalanceSheet degenerateAssumptions degenerateIncome none none

def degenerateCashFlow : CashFlowStatement :=
  calculateCashFlowStatement degenerateAssumptions degenerateIncome
    degenerateBalance none

/-- `calculate_dcf_valuation` applied at the degenerate (WACC = 0) input. -/
def degenerateDCF : DCFValuation :=
  calculateDCFValuation .base [degenerateCashFlow] degenerateAssumptions
    degenerateBalance

/-- An assumption set tuned so that the income statement's pre-tax income is
exactly −5,000,000,000 (with positive total revenue, so none of the Python
divisions raises). -/
def lossAssumptions : TeslaAssumptions :=
  { getTeslaAssumptions .base 2025 with
    automotive_revenue_growth := 0, services_revenue_growth := 0,
    gross_margin_automotive := 1, rd_as_percent_revenue := 0,
    sga_as_percent_revenue := 0, interest_rate_on_debt := 5660001 / 9570000 }

/-- Previous-year revenue data paired with `lossAssumptions`. -/
def lossPrev : Option (ℚ × ℚ) := some (1000, 0)

/-- Growth rates of −100% drive both segment revenues, hence total revenue,
to zero. -/
def zeroRevenueAssumptions : TeslaAssumptions :=
  { getTeslaAssumptions .base 2025 with
    automotive_revenue_growth := -1, services_revenue_growth := -1 }

/-- Base period for the revenue-bridge counterexample: one automotive model
line plus nonzero energy and services revenue. -/
def bridgeBase : BridgeYearData :=
  { total_revenue := 100
    energy_revenue := 10
    services_revenue := 5
    automotive_revenue_by_model := [("model_y", ⟨1, 10⟩)] }

/-- Comparison period for the revenue-bridge counterexample. -/
def bridgeCurrent : BridgeYearData :=
  { total_revenue := 130
    energy_revenue := 20
    services_revenue := 10
    automotive_revenue_by_model := [("model_y", ⟨2, 11⟩)] }

/-! ### Theorems -/

/-- C3: for every assumption set and previous-year data under which
`calculate_income_statement` yields a non-positive pre-tax income, the
resulting statement has zero income-tax expense and net income equal to
pre-tax income. -/
theorem tax_zero_when_pretax_nonpositive (a : TeslaAssumptions)
    (prev : Option (ℚ × ℚ))
    (h : (calculateIncomeStatement a prev).pretax_income ≤ 0) :
    (calculateIncomeStatement a prev).income_tax_expense = 0 ∧
    (calculateIncomeStatement a prev).net_income =
      (calculateIncomeStatement a prev).pretax_income := by
  simp only [calculateIncomeStatement] at h ⊢
  rw [if_neg (not_lt.mpr h)]
  exact ⟨rfl, by ring⟩

/-- Witness for C3: at `lossAssumptions`/`lossPrev` the pre-tax income is
exactly −5,000,000,000, the tax expense is 0 and net income equals pre-tax
income. -/
theorem tax_zero_when_pretax_nonpositive_witness :
    (calculateIncomeStatement lossAssumptions lossPrev).pretax_income =
      -5000000000 ∧
    ((calculateIncomeStatement lossAssumptions lossPrev).income_tax_expense = 0 ∧
     (calculateIncomeStatement lossAssumptions lossPrev).net_income =
       (calculateIncomeStatement lossAssumptions lossPrev).pretax_income) :=
  ⟨by norm_num +decide [calculateIncomeStatement, lossAssumptions, lossPrev,
      getTeslaAssumptions, baseDeliveryGrowth, deliveryGrowthMultiplier,
      aspPremium, marginImprovement, costInflationDiscount, pyInt,
      baseYearTotalDeliveries],
   tax_zero_when_pretax_nonpositive lossAssumptions lossPrev
    (by norm_num +decide [calculateIncomeStatement, lossAssumptions, lossPrev,
      getTeslaAssumptions, baseDeliveryGrowth, deliveryGrowthMultiplier,
      aspPremium, marginImprovement, costInflationDiscount, pyInt,
      baseYearTotalDeliveries])⟩

/-- C4 counterexample: at an input with total revenue equal to zero
(−100% growth on both segments), `calculate_income_statement` raises
`ZeroDivisionError` at the unguarded `gross_margin` division instead of
resolving the margins to 0 — refuting the claim that the computation never
raises for non-positive revenue. -/
theorem margin_division_raises_on_zero_revenue :
    calculateIncomeStatementChecked zeroRevenueAssumptions none = none := by
  norm_num +decide [calculateIncomeStatementChecked, calculateIncomeStatement,
    zeroRevenueAssumptions, getTeslaAssumptions, baseDeliveryGrowth,
    deliveryGrowthMultiplier, aspPremium, marginImprovement,
    costInflationDiscount, pyInt, baseYearTotalDeliveries,
    baseYearAutomotiveRevenue, baseYearServicesRevenue]

/-- C4 (amended): for non-positive total revenue, only the guarded ratios are
safe — `net_margin` resolves to 0, and EPS never divides by zero because the
share count is the fixed constant 3,178,000,000 — while the unguarded
`gross_margin`/`operating_margin` divisions raise whenever total revenue is
exactly zero. -/
theorem degenerate_ratio_partial_guard (a : TeslaAssumptions)
    (prev : Option (ℚ × ℚ))
    (h : (calculateIncomeStatement a prev).total_revenue ≤ 0) :
    ((calculateIncomeStatement a prev).total_revenue = 0 →
      calculateIncomeStatementChecked a prev = none) ∧
    (calculateIncomeStatement a prev).net_margin = 0 ∧
    (calculateIncomeStatement a prev).shares_outstanding = 3178000000 ∧
    (calculateIncomeStatement a prev).earnings_per_share =
      (calculateIncomeStatement a prev).net_income / 3178000000 := by
  refine ⟨fun h0 => ?_, ?_, rfl, rfl⟩
  · simp only [calculateIncomeStatementChecked, h0, if_pos]
  · simp only [calculateIncomeStatement] at h ⊢
    rw [if_neg (not_lt.mpr h)]

/-- Witness for the amended C4 at the zero-revenue input. -/
theorem degenerate_ratio_partial_guard_witness :
    calculateIncomeStatementChecked zeroRevenueAssumptions none = none ∧
    (calculateIncomeStatement zeroRevenueAssumptions none).net_margin = 0 := by
  have hz : (calculateIncomeStatement zeroRevenueAssumptions none).total_revenue
      = 0 := by
    norm_num +decide [calculateIncomeStatement, zeroRevenueAssumptions,
      getTeslaAssumptions, baseDeliveryGrowth, deliveryGrowthMultiplier,
      aspPremium, marginImprovement, costInflationDiscount, pyInt,
      baseYearTotalDeliveries, baseYearAutomotiveRevenue,
      baseYearServicesRevenue]
  exact ⟨(degenerate_ratio_partial_guard zeroRevenueAssumptions none
            hz.le).1 hz,
         (degenerate_ratio_partial_guard zeroRevenueAssumptions none
            hz.le).2.1⟩

/-- C5: in the BASE scenario's complete model the first forecast year's
aggregate-mode revenues are exactly the historical bases times
`(1 + growth)`: automotive `82,419,000,000 × 1.20 = 98,902,800,000` and
services `14,354,000,000 × 1.35 = 19,377,900,000`. -/
theorem first_year_aggregate_revenue :
    ((buildCompleteFinancialModel .base).income_statements.map
        (fun i => (i.automotive_revenue, i.services_revenue))).head? =
      some (98902800000, 19377900000) := by
  norm_num +decide [buildCompleteFinancialModel, forecastYears,
    getTeslaAssumptions, runModel, modelStep, calculateIncomeStatement,
    calculateBalanceSheet, calculateCashFlowStatement, reconcileBalanceSheet,
    baseDeliveryGrowth, deliveryGrowthMultiplier, aspPremium,
    marginImprovement, costInflationDiscount, pyInt,
    baseYearAutomotiveRevenue, baseYearServicesRevenue, baseYearCash,
    baseYearTotalDebt, baseYearTotalDeliveries]

/-- C7 counterexample: on concrete bridge inputs with nonzero energy and
services growth, the five named components of `calculate_revenue_bridge` sum
to 45 while the total revenue change is 30 — the claimed decomposition
identity fails by exactly the energy + services deltas. -/
theorem bridge_components_overcount :
    (calculateRevenueBridge bridgeBase bridgeCurrent).volume_effect +
      (calculateRevenueBridge bridgeBase bridgeCurrent).price_effect +
      (calculateRevenueBridge bridgeBase bridgeCurrent).mix_effect +
      (calculateRevenueBridge bridgeBase bridgeCurrent).energy_growth +
      (calculateRevenueBridge bridgeBase bridgeCurrent).services_growth = 45 ∧
    (calculateRevenueBridge bridgeBase bridgeCurrent).total_change = 30 := by
  norm_num [calculateRevenueBridge, bridgeBase, bridgeCurrent, lookupModel]

/-- C7 (amended): `volume_effect + price_effect + mix_effect` alone equals the
total revenue change exactly (the mix residual already absorbs all segment
growth), so adding the separately reported energy/services deltas overshoots
by precisely those deltas. -/
theorem bridge_core_components_sum (base current : BridgeYearData) :
    (calculateRevenueBridge base current).volume_effect +
        (calculateRevenueBridge base current).price_effect +
        (calculateRevenueBridge base current).mix_effect =
      (calculateRevenueBridge base current).total_change ∧
    (calculateRevenueBridge base current).volume_effect +
        (calculateRevenueBridge base current).price_effect +
        (calculateRevenueBridge base current).mix_effect +
        (calculateRevenueBridge base current).energy_growth +
        (calculateRevenueBridge base current).services_growth =
      (calculateRevenueBridge base current).total_change +
        ((calculateRevenueBridge base current).energy_growth +
          (calculateRevenueBridge base current).services_growth) := by
  simp only [calculateRevenueBridge]
  exact ⟨by ring, by ring⟩

/-- C1: evaluation at the failing input (BASE scenario, first forecast year
2025).  The finalized (cash-reconciled) balance sheet has total assets
`9809810572250/73 ≈ 134.38B` against liabilities + equity
`4465220983250/73 ≈ 61.17B`; the accounting identity fails far beyond the
claimed 1e−6 relative tolerance. -/
theorem balance_identity_violated_base_2025 :
    ((buildCompleteFinancialModel .base).balance_sheets.map
        (fun b => (b.total_assets,
          b.total_liabilities + b.total_shareholders_equity))).head? =
      some (9809810572250 / 73, 4465220983250 / 73) ∧
    ¬ (|(9809810572250 / 73 : ℚ) - 4465220983250 / 73| ≤
        1 / 1000000 * |(4465220983250 / 73 : ℚ)|) := by
  constructor
  · norm_num +decide [buildCompleteFinancialModel, forecastYears,
      getTeslaAssumptions, runModel, modelStep, calculateIncomeStatement,
      calculateBalanceSheet, calculateCashFlowStatement,
      reconcileBalanceSheet, baseDeliveryGrowth, deliveryGrowthMultiplier,
      aspPremium, marginImprovement, costInflationDiscount, pyInt,
      baseYearAutomotiveRevenue, baseYearServicesRevenue, baseYearCash,
      baseYearTotalDebt, baseYearTotalDeliveries]
  · rw [abs_of_pos (by norm_num), abs_of_pos (by norm_num)]
    norm_num

/-- C2: evaluation at the failing input.  With CAPM inputs and debt cost all
zero the computed WACC is 0 ≤ 2.5% terminal growth, yet
`calculate_dcf_valuation` silently performs the terminal-value division and
returns the meaningless negative value `−88182687875250/73` instead of
detecting the degenerate condition. -/
theorem terminal_value_division_unguarded :
    degenerateDCF.wacc = 0 ∧
    degenerateDCF.terminal_growth_rate = 0.025 ∧
    degenerateDCF.terminal_value = -88182687875250 / 73 ∧
    degenerateDCF.terminal_value < 0 := by
  norm_num +decide [degenerateDCF, degenerateCashFlow, degenerateBalance,
    degenerateIncome, degenerateAssumptions, calculateDCFValuation,
    calculateWacc, calculateIncomeStatement, calculateBalanceSheet,
    calculateCashFlowStatement, presentValueCashFlows, getTeslaAssumptions,
    baseDeliveryGrowth, deliveryGrowthMultiplier, aspPremium,
    marginImprovement, costInflationDiscount, pyInt,
    baseYearAutomotiveRevenue, baseYearServicesRevenue, baseYearCash,
    baseYearTotalDebt, baseYearTotalDeliveries]

/-- The reconciliation step overwrites the balance sheet's cash with the
cash-flow statement's ending cash (line 472). -/
theorem reconcile_cash_eq (bs : BalanceSheet) (cf : CashFlowStatement) :
    (reconcileBalanceSheet bs cf).cash_and_equivalents = cf.ending_cash := rfl

/-- After a model step, the finalized balance sheet's cash equals the step's
ending cash. -/
theorem modelStep_cash (pI : Option IncomeStatement)
    (pB : Option BalanceSheet) (a : TeslaAssumptions) :
    (modelStep pI pB a).2.1.cash_and_equivalents =
      (modelStep pI pB a).2.2.ending_cash := rfl

/-- The first cash-flow statement produced from a known previous balance
sheet reads its beginning cash from that sheet. -/
theorem runModel_head_beginning (as : List TeslaAssumptions)
    (pI : Option IncomeStatement) (b : BalanceSheet) :
    ∀ c ∈ ((runModel pI (some b) as).2.2).head?,
      c.beginning_cash = b.cash_and_equivalents := by
  cases as with
  | nil => simp [runModel]
  | cons a rest =>
    intro c hc
    simp only [runModel, List.head?_cons, Option.mem_def,
      Option.some.injEq] at hc
    subst hc
    rfl

/-- Year-over-year cash linkage of the fold: every produced cash-flow
statement's ending cash is the next one's beginning cash, for any starting
accumulator. -/
theorem runModel_cash_chain (as : List TeslaAssumptions) :
    ∀ (pI : Option IncomeStatement) (pB : Option BalanceSheet),
      List.Chain' (fun c c' => c.ending_cash = c'.beginning_cash)
        ((runModel pI pB as).2.2) := by
  induction as with
  | nil => intro pI pB; simp [runModel]
  | cons a rest ih =>
    intro pI pB
    refine List.chain'_cons'.mpr ⟨fun c hc => ?_, ih _ _⟩
    rw [runModel_head_beginning rest (some (modelStep pI pB a).1)
      (modelStep pI pB a).2.1 c hc]
    exact (modelStep_cash pI pB a).symm

/-- C6: in every scenario's complete financial model, each year's ending cash
equals the following year's beginning cash (the beginning cash is read from
the prior finalized balance sheet, whose cash was reconciled to the prior
ending cash). -/
theorem ending_cash_carries_forward (scenario : Scenario) :
    List.Chain' (fun c c' => c.ending_cash = c'.beginning_cash)
      (buildCompleteFinancialModel scenario).cash_flow_statements :=
  runModel_cash_chain (forecastYears.map (getTeslaAssumptions scenario))
    none none

set_option maxHeartbeats 16000000 in
/-- The BASE scenario's sensitivity matrix, with its four inputs (final-year
FCF, FCF path, net cash, WACC) evaluated to exact rationals. -/
theorem dcf_matrix_args_base :
    (buildCompleteFinancialModel .base).dcf_valuation.sensitivity_matrix =
      sensitivityMatrix (507023171146321503 / 29200000)
        [2124599390250 / 73, 2303174379165 / 292, 15111297040341 / 1460,
         7870789499667447 / 584000, 507023171146321503 / 29200000]
        (2937642572553013853 / 29200000)
        (288674271161308793 / 1674533551123253000) := by
  norm_num +decide [buildCompleteFinancialModel, forecastYears,
    getTeslaAssumptions, runModel, modelStep, calculateIncomeStatement,
    calculateBalanceSheet, calculateCashFlowStatement, reconcileBalanceSheet,
    calculateDCFValuation, calculateWacc, baseDeliveryGrowth,
    deliveryGrowthMultiplier, aspPremium, marginImprovement,
    costInflationDiscount, pyInt, baseYearAutomotiveRevenue,
    baseYearServicesRevenue, baseYearCash, baseYearTotalDebt,
    baseYearTotalDeliveries, List.getLast?_singleton, List.getLast?_cons_cons]

set_option maxHeartbeats 16000000 in
/-- The BEST scenario's sensitivity matrix with its inputs evaluated. -/
theorem dcf_matrix_args_best :
    (buildCompleteFinancialModel .best).dcf_valuation.sensitivity_matrix =
      sensitivityMatrix (2139532008336792857301 / 91250000000)
        [2322617941866 / 73, 780379264767 / 73, 51268336474162281 / 3650000,
         16667065944991021893 / 912500000, 2139532008336792857301 / 91250000000]
        (11012620996731202071601 / 91250000000)
        (28189103025251867852797 / 161876681738269988137000) := by
  norm_num +decide [buildCompleteFinancialModel, forecastYears,
    getTeslaAssumptions, runModel, modelStep, calculateIncomeStatement,
    calculateBalanceSheet, calculateCashFlowStatement, reconcileBalanceSheet,
    calculateDCFValuation, calculateWacc, baseDeliveryGrowth,
    deliveryGrowthMultiplier, aspPremium, marginImprovement,
    costInflationDiscount, pyInt, baseYearAutomotiveRevenue,
    baseYearServicesRevenue, baseYearCash, baseYearTotalDebt,
    baseYearTotalDeliveries, List.getLast?_singleton, List.getLast?_cons_cons]

set_option maxHeartbeats 16000000 in
/-- The WORST scenario's sensitivity matrix with its inputs evaluated. -/
theorem dcf_matrix_args_worst :
    (buildCompleteFinancialModel .worst).dcf_valuation.sensitivity_matrix =
      sensitivityMatrix (50901719926755906993 / 3650000000)
        [1978915565850 / 73, 2262886546494 / 365, 1199123427151407 / 146000,
         392735137011112857 / 36500000, 50901719926755906993 / 3650000000]
        (323565062014092367693 / 3650000000)
        (151362053990097536933 / 886034488867942193000) := by
  norm_num +decide [buildCompleteFinancialModel, forecastYears,
    getTeslaAssumptions, runModel, modelStep, calculateIncomeStatement,
    calculateBalanceSheet, calculateCashFlowStatement, reconcileBalanceSheet,
    calculateDCFValuation, calculateWacc, baseDeliveryGrowth,
    deliveryGrowthMultiplier, aspPremium, marginImprovement,
    costInflationDiscount, pyInt, baseYearAutomotiveRevenue,
    baseYearServicesRevenue, baseYearCash, baseYearTotalDebt,
    baseYearTotalDeliveries, List.getLast?_singleton, List.getLast?_cons_cons]

set_option maxHeartbeats 16000000 in
/-- C9: in every scenario's DCF sensitivity matrix (rows indexed by the five
terminal growth rates in increasing order, columns by the five WACC values in
increasing order), every cell is positive — hence valid, not the 0 sentinel —
and within each row the price per share strictly decreases as the discount
rate increases, while pointwise between consecutive rows it strictly
increases with the terminal growth rate. -/
theorem sensitivity_matrix_monotone (s : Scenario) :
    ((buildCompleteFinancialModel s).dcf_valuation.sensitivity_matrix).Forall
        (fun row => List.Chain' (fun x y => y < x) row ∧
          row.Forall (fun x => 0 < x)) ∧
    List.Chain' (List.Forall₂ (fun x y => x < y))
      ((buildCompleteFinancialModel s).dcf_valuation.sensitivity_matrix) := by
  cases s with
  | best =>
    rw [dcf_matrix_args_best]
    norm_num [sensitivityMatrix, sensitivityCell, sensitivityGrowthRates,
      sensitivityWaccRates, presentValueCashFlows, discountFrom,
      List.Forall, List.forall₂_cons]
  | base =>
    rw [dcf_matrix_args_base]
    norm_num [sensitivityMatrix, sensitivityCell, sensitivityGrowthRates,
      sensitivityWaccRates, presentValueCashFlows, discountFrom,
      List.Forall, List.forall₂_cons]
  | worst =>
    rw [dcf_matrix_args_worst]
    norm_num [sensitivityMatrix, sensitivityCell, sensitivityGrowthRates,
      sensitivityWaccRates, presentValueCashFlows, discountFrom,
      List.Forall, List.forall₂_cons]

/-- C10 counterexample: for forecast year 2030 (outside the 2024–2029 growth
table) the fallback returns the raw 2023 base count unchanged, and for
Model S that count is the fractional 27,389.5 — not an integer. -/
theorem projected_deliveries_fractional_2030 :
    projectedDeliveries .base .model_s 2030 = 27389.5 ∧
    ¬ ∃ n : ℤ, ((n : ℚ) = projectedDeliveries .base .model_s 2030) := by
  have h : projectedDeliveries .base .model_s 2030 = 27389.5 := by
    norm_num [projectedDeliveries, deliveryGrowthRate, baseDeliveries2023]
  refine ⟨h, ?_⟩
  rintro ⟨n, hn⟩
  rw [h] at hn
  have h2 : ((2 * n : ℤ) : ℚ) = 54779 := by
    push_cast
    rw [hn]
    norm_num
  have h3 : (2 * n : ℤ) = 54779 := by exact_mod_cast h2
  omega

/-- C10 (amended): for every scenario, model and year inside the 2024–2029
growth table, the projected delivery count is a non-negative integer — the
compounded count is truncated (`int`) and clamped (`max(0, ...)`) — even
under the WORST scenario's sustained negative growth rates.  Outside the
table the raw (possibly fractional) 2023 base count is returned unchanged. -/
theorem projected_deliveries_integral_in_table (s : Scenario)
    (m : VehicleModel) (y : ℤ) (h1 : 2024 ≤ y) (h2 : y ≤ 2029) :
    ∃ n : ℕ, projectedDeliveries s m y = (n : ℚ) := by
  obtain ⟨g, hg⟩ : ∃ g, deliveryGrowthRate s m y = some g := by
    unfold deliveryGrowthRate
    interval_cases y <;> simp
  refine ⟨(max 0 (pyInt (baseDeliveries2023 m * cumulativeGrowth s m y))).toNat,
    ?_⟩
  simp only [projectedDeliveries, hg]
  have hnn : ((max 0 (pyInt (baseDeliveries2023 m *
      cumulativeGrowth s m y))).toNat : ℤ) =
      max 0 (pyInt (baseDeliveries2023 m * cumulativeGrowth s m y)) :=
    Int.toNat_of_nonneg (le_max_left 0 _)
  exact_mod_cast (congrArg (fun z : ℤ => (z : ℚ)) hnn).symm

/-- Witness for the amended C10 at the WORST scenario's Model 3 in 2029
(a model-year with sustained negative growth). -/
theorem projected_deliveries_integral_witness :
    ∃ n : ℕ, projectedDeliveries .worst .model_3 2029 = (n : ℚ) :=
  projected_deliveries_integral_in_table .worst .model_3 2029
    (by norm_num) (by norm_num)

/-- C8: for every sensitivity-matrix cell — any inputs, any growth rate from
the hard-coded row list and any discount rate from the WACC column list —
the cell is the 0 sentinel whenever the discount rate is at most the growth
rate, and the cell computation never divides by zero (the matrix's (i,j)
entry is by definition `sensitivityCell` at the i-th growth and j-th
discount rate). -/
theorem sensitivity_cells_guarded (final_year_fcf : ℚ) (fcfs : List ℚ)
    (net_cash wacc growth discount_rate : ℚ)
    (hg : growth ∈ sensitivityGrowthRates)
    (_hd : discount_rate ∈ sensitivityWaccRates wacc) :
    (discount_rate ≤ growth →
      sensitivityCell final_year_fcf fcfs net_cash growth discount_rate = 0) ∧
    ∃ v, sensitivityCellChecked final_year_fcf fcfs net_cash growth
      discount_rate = some v := by
  refine ⟨fun hle => by simp [sensitivityCell, hle], ?_⟩
  by_cases hle : discount_rate ≤ growth
  · exact ⟨0, by simp [sensitivityCellChecked, hle]⟩
  · have hlt : growth < discount_rate := not_le.mp hle
    have hg015 : (0.015 : ℚ) ≤ growth := by
      fin_cases hg <;> norm_num
    have h1 : discount_rate - growth ≠ 0 := ne_of_gt (sub_pos.mpr hlt)
    have h2 : (1 : ℚ) + discount_rate ≠ 0 := by
      have : (0 : ℚ) < 1 + discount_rate := by linarith
      exact ne_of_gt this
    refine ⟨sensitivityCell final_year_fcf fcfs net_cash growth
      discount_rate, ?_⟩
    simp [sensitivityCellChecked, hle, h1, h2]

/-- Witness for C8: growth 2.5%, discount rate 1% (the lowest column when the
computed WACC is 2%) — an invalid cell resolved to the sentinel, with no
division raised. -/
theorem sensitivity_cells_guarded_witness :
    ((0.01 : ℚ) ≤ 0.025 →
      sensitivityCell 1000000000 [1000000000] 0 0.025 0.01 = 0) ∧
    ∃ v, sensitivityCellChecked 1000000000 [1000000000] 0 0.025 0.01 =
      some v :=
  sensitivity_cells_guarded 1000000000 [1000000000] 0 0.02 0.025 0.01
    (by norm_num [sensitivityGrowthRates])
    (by norm_num [sensitivityWaccRates])

end Tesla
